import Mathlib

/-
Shallow embedding of src/dump.rs from karlvw/socketcan-rs: the candump log
reader.  Byte strings are modelled as `List Nat` (each element a byte value),
the byte source as a pure list of remaining bytes, and the reader state as the
pair of the remaining source and the reusable line buffer.  Machine integers
(u64 timestamps, u32 frame ids) are modelled as `Nat` with explicit range
checks where the Rust code checks them.
-/

namespace SocketCanDump

/-- Decidable equality for Except, so concrete runs of the fallible decoders
can be checked by evaluation. -/
instance exceptDecEq {ε : Type u} {α : Type v} [DecidableEq ε] [DecidableEq α] :
    DecidableEq (Except ε α)
  | .ok a, .ok b =>
    if h : a = b then .isTrue (h ▸ rfl) else .isFalse (fun hc => h (Except.ok.inj hc))
  | .error a, .error b =>
    if h : a = b then .isTrue (h ▸ rfl) else .isFalse (fun hc => h (Except.error.inj hc))
  | .ok _, .error _ => .isFalse (fun hc => Except.noConfusion hc)
  | .error _, .ok _ => .isFalse (fun hc => Except.noConfusion hc)

/-- Construction errors of the external frame type.
Modelled from the spec: the Frame value type is an external collaborator
(repository code outside src/); its constructor may fail, e.g. on data longer
than 8 bytes for classic frames or on reserved id bits. -/
inductive ConstructionError where
  | dataTooLong
  | idTooLarge
deriving DecidableEq

/-- Error taxonomy of the reader, mirroring `enum ParseError` in src/dump.rs.
The `ioError` variant wraps an underlying I/O failure; with the byte source
modelled as a pure list it is never produced. -/
inductive ParseError where
  | ioError
  | unexpectedEndOfLine
  | invalidTimestamp
  | invalidDeviceName
  | invalidCanFrame
  | constructionError (e : ConstructionError)
deriving DecidableEq

/-- A CAN frame value: id, data bytes, remote-request flag, error-frame flag. -/
structure CANFrame where
  id : Nat
  data : List Nat
  rtr : Bool
  err_frame : Bool
deriving DecidableEq

/-- Fallible frame constructor.
Modelled from the spec: `CANFrame::new(id, data, rtr, err)` is repository code
outside src/; per the spec it rejects data longer than 8 bytes and ids with
reserved bits set (here: ids not representable in 29 bits), and otherwise
returns the frame with the given flags. -/
def CANFrame.new (id : Nat) (data : List Nat) (rtr err_frame : Bool) :
    Except ConstructionError CANFrame :=
  if 8 < data.length then .error .dataTooLong
  else if 2 ^ 29 ≤ id then .error .idTooLarge
  else .ok ⟨id, data, rtr, err_frame⟩

/-- One decoded record, mirroring `struct CanDumpRecord` in src/dump.rs.  The
device name is a borrowed view into the line buffer; we model it as the raw
byte list of that field. -/
structure CanDumpRecord where
  t_us : Nat
  device : List Nat
  frame : CANFrame
deriving DecidableEq

/-- Test for an ASCII decimal digit byte. -/
def isAsciiDigit (b : Nat) : Bool := 48 ≤ b && b ≤ 57

/-- Value of a list of ASCII decimal digit bytes, most significant first. -/
def digitsToNat (l : List Nat) : Nat := l.foldl (fun acc b => acc * 10 + (b - 48)) 0

/-- Rust integer parsing as used by `parse_raw` in src/dump.rs, which composes
`str::from_utf8` with `FromStr` for an unsigned integer of width `w` bits: it
succeeds exactly on an optional leading plus sign followed by one or more ASCII
decimal digits whose value fits in `w` bits.  Any other byte sequence fails,
including non-UTF-8 bytes (those already fail the `from_utf8` step) and values
that overflow the width.  Note this is decimal parsing: `FromStr` for Rust
unsigned integers reads base 10. -/
def parse_raw (w : Nat) (bytes : List Nat) : Option Nat :=
  let digits := if bytes.head? = some 43 then bytes.tail else bytes
  if digits ≠ [] ∧ digits.all isAsciiDigit ∧ digitsToNat digits < 2 ^ w
  then some (digitsToNat digits) else none

/-- Value of one ASCII hex digit byte (both cases), as accepted by the `hex`
crate. -/
def hexDigitVal (b : Nat) : Option Nat :=
  if 48 ≤ b ∧ b ≤ 57 then some (b - 48)
  else if 97 ≤ b ∧ b ≤ 102 then some (b - 87)
  else if 65 ≤ b ∧ b ≤ 70 then some (b - 55)
  else none

/-- Hex decoding, mirroring `Vec::from_hex` of the `hex` crate as used in
src/dump.rs: an even-length sequence of ASCII hex digit bytes decodes two
digits per output byte; odd length or any non-hex byte fails. -/
def from_hex : List Nat → Option (List Nat)
  | [] => some []
  | [_] => none
  | hi :: lo :: rest =>
    match hexDigitVal hi, hexDigitVal lo, from_hex rest with
    | some h, some l, some tail => some ((h * 16 + l) :: tail)
    | _, _, _ => none

/-- UTF-8 validity of a byte list, mirroring `std::str::from_utf8` as used for
the device field in src/dump.rs: ASCII passes through, multi-byte sequences
must be well-formed with no overlong forms, no surrogates, and nothing beyond
U+10FFFF. -/
def isValidUtf8 : List Nat → Bool
  | [] => true
  | b :: rest =>
    if b < 128 then isValidUtf8 rest
    else if 194 ≤ b ∧ b ≤ 223 then
      match rest with
      | b1 :: rest1 => decide (128 ≤ b1 ∧ b1 ≤ 191) && isValidUtf8 rest1
      | [] => false
    else if b = 224 then
      match rest with
      | b1 :: b2 :: rest2 =>
        decide (160 ≤ b1 ∧ b1 ≤ 191) && decide (128 ≤ b2 ∧ b2 ≤ 191) && isValidUtf8 rest2
      | _ => false
    else if (225 ≤ b ∧ b ≤ 236) ∨ b = 238 ∨ b = 239 then
      match rest with
      | b1 :: b2 :: rest2 =>
        decide (128 ≤ b1 ∧ b1 ≤ 191) && decide (128 ≤ b2 ∧ b2 ≤ 191) && isValidUtf8 rest2
      | _ => false
    else if b = 237 then
      match rest with
      | b1 :: b2 :: rest2 =>
        decide (128 ≤ b1 ∧ b1 ≤ 159) && decide (128 ≤ b2 ∧ b2 ≤ 191) && isValidUtf8 rest2
      | _ => false
    else if b = 240 then
      match rest with
      | b1 :: b2 :: b3 :: rest3 =>
        decide (144 ≤ b1 ∧ b1 ≤ 191) && decide (128 ≤ b2 ∧ b2 ≤ 191) &&
          decide (128 ≤ b3 ∧ b3 ≤ 191) && isValidUtf8 rest3
      | _ => false
    else if 241 ≤ b ∧ b ≤ 243 then
      match rest with
      | b1 :: b2 :: b3 :: rest3 =>
        decide (128 ≤ b1 ∧ b1 ≤ 191) && decide (128 ≤ b2 ∧ b2 ≤ 191) &&
          decide (128 ≤ b3 ∧ b3 ≤ 191) && isValidUtf8 rest3
      | _ => false
    else if b = 244 then
      match rest with
      | b1 :: b2 :: b3 :: rest3 =>
        decide (128 ≤ b1 ∧ b1 ≤ 143) && decide (128 ≤ b2 ∧ b2 ≤ 191) &&
          decide (128 ≤ b3 ∧ b3 ≤ 191) && isValidUtf8 rest3
      | _ => false
    else false

/-- Largest u64 value. -/
def U64_MAX : Nat := 2 ^ 64 - 1

/-- Rust `u64::saturating_mul` on the Nat model. -/
def u64_saturating_mul (a b : Nat) : Nat := min (a * b) U64_MAX

/-- Rust `u64::saturating_add` on the Nat model. -/
def u64_saturating_add (a b : Nat) : Nat := min (a + b) U64_MAX

/-- Timestamp combination of src/dump.rs line 93:
`n_num.saturating_mul(1_000_000).saturating_add(n_mant)`. -/
def combine_timestamp (s m : Nat) : Nat :=
  u64_saturating_add (u64_saturating_mul s 1000000) m

/-- State of a `Reader`: the remaining bytes of the underlying source and the
reusable line buffer `line_buf`.  A reader fresh from `from_reader` has an
empty buffer. -/
structure ReaderState where
  source : List Nat
  line_buf : List Nat
deriving DecidableEq

/-- Model of `BufRead::read_until(b'\n', buf)` on a pure byte-list source:
returns the consumed chunk, up to and including the first newline byte (or the
whole source when no newline remains), and the rest of the source.  The caller
appends the chunk to its buffer, matching the appending behaviour of
`read_until`. -/
def read_until_nl : List Nat → List Nat × List Nat
  | [] => ([], [])
  | b :: rest =>
    if b = 10 then ([b], rest)
    else (b :: (read_until_nl rest).1, (read_until_nl rest).2)

/-- Frame-payload stage of `next_record` (src/dump.rs lines 103-119): find the
first `#` byte (35), split the field with `split_at` (so the second part still
starts with the separator byte), compare that second part with `R` (82) for
the remote-request marker, hex-decode it otherwise, parse the id text with
`parse_raw` at u32 width, and call the frame constructor with the error-frame
flag fixed to false. -/
def decode_frame_payload (can_raw : List Nat) : Except ParseError CANFrame :=
  match can_raw.findIdx? (fun c => c == 35) with
  | none => .error .invalidCanFrame
  | some sep_idx =>
    let can_id := can_raw.take sep_idx
    let can_data := can_raw.drop sep_idx
    let rtr : Bool := can_data == [82]
    match (if rtr then some [] else from_hex can_data) with
    | none => .error .invalidCanFrame
    | some data =>
      match parse_raw 32 can_id with
      | none => .error .invalidCanFrame
      | some id =>
        match CANFrame.new id data rtr false with
        | .error e => .error (.constructionError e)
        | .ok frame => .ok frame

/-- Parsing of the filled line buffer: the body of `next_record` after the
read (src/dump.rs lines 75-125).  The buffer is split on space bytes (32); the
first field must be parenthesized and is split at the first dot byte (46) by
`split_at`, so the seconds text keeps the opening parenthesis and the fraction
text keeps the dot and the closing parenthesis; both parts go to `parse_raw`
at u64 width; the second field must be valid UTF-8; the third field goes to
the payload decoder. -/
def parse_line (buf : List Nat) : Except ParseError CanDumpRecord :=
  match buf.splitOn 32 with
  | [] => .error .unexpectedEndOfLine
  | f :: rest =>
    if f.length < 3 ∨ f.getD 0 0 ≠ 40 ∨ f.getD (f.length - 1) 0 ≠ 41 then
      .error .invalidTimestamp
    else
      match f.findIdx? (fun c => c == 46) with
      | none => .error .invalidTimestamp
      | some dot =>
        match parse_raw 64 (f.take dot) with
        | none => .error .invalidTimestamp
        | some n_num =>
          match parse_raw 64 (f.drop dot) with
          | none => .error .invalidTimestamp
          | some n_mant =>
            let t_us := combine_timestamp n_num n_mant
            match rest with
            | [] => .error .unexpectedEndOfLine
            | devf :: rest2 =>
              if ¬ isValidUtf8 devf then .error .invalidDeviceName
              else
                match rest2 with
                | [] => .error .unexpectedEndOfLine
                | can_raw :: _ =>
                  match decode_frame_payload can_raw with
                  | .error e => .error e
                  | .ok frame => .ok ⟨t_us, devf, frame⟩

/-- Model of `Reader::next_record` (src/dump.rs lines 67-126): read one line
from the source with `read_until`, which appends the chunk to `line_buf`
without clearing it first; on a zero-byte read return Ok(None); otherwise
parse the whole buffer contents. -/
def next_record (st : ReaderState) :
    Except ParseError (Option CanDumpRecord) × ReaderState :=
  let chunk := (read_until_nl st.source).1
  let buf := st.line_buf ++ chunk
  let st' : ReaderState := ⟨(read_until_nl st.source).2, buf⟩
  if chunk.length = 0 then (.ok none, st')
  else
    match parse_line buf with
    | .error e => (.error e, st')
    | .ok r => (.ok (some r), st')

/-- Model of `Iterator::next` for `CanDumpRecords` (src/dump.rs lines
129-140): forward `next_record`, mapping a decoded record to the pair of its
timestamp and a unit placeholder, end-of-input to no element, and an error to
an error element. -/
def records_next (st : ReaderState) :
    Option (Except ParseError (Nat × Unit)) × ReaderState :=
  match next_record st with
  | (.ok (some r), st') => (some (.ok (r.t_us, ())), st')
  | (.ok none, st') => (none, st')
  | (.error e, st') => (some (.error e), st')

/-- ASCII byte list of a string literal, convenience for concrete inputs. -/
def strBytes (s : String) : List Nat := s.toList.map Char.toNat

/-- A read on a nonempty source consumes at least one byte: the chunk returned
by read_until_nl is empty exactly when the source is. -/
theorem read_until_nl_fst_nil_iff (l : List Nat) :
    (read_until_nl l).1 = [] ↔ l = [] := by
  cases l with
  | nil => simp [read_until_nl]
  | cons b rest =>
    simp only [read_until_nl]
    by_cases hb : b = 10 <;> simp [hb]

/-- On an exhausted source, next_record reports end of input and leaves the
source exhausted and the buffer unchanged. -/
theorem next_record_source_nil (st : ReaderState) (h : st.source = []) :
    next_record st = (.ok none, ⟨[], st.line_buf⟩) := by
  simp [next_record, h, read_until_nl]

/-- Conversely, next_record reports end of input only on an exhausted source:
on a nonempty source the outcome is a record or an error, never Ok(None). -/
theorem next_record_ok_none_source (st : ReaderState)
    (h : (next_record st).1 = .ok none) : st.source = [] := by
  by_contra hs
  have hch : (read_until_nl st.source).1 ≠ [] := by
    intro hc
    exact hs ((read_until_nl_fst_nil_iff st.source).mp hc)
  have hlen : ¬ (read_until_nl st.source).1.length = 0 := by
    simpa [List.length_eq_zero] using hch
  unfold next_record at h
  simp only [hlen, if_false] at h
  rcases hpl : parse_line (st.line_buf ++ (read_until_nl st.source).1) with e | r <;>
    simp [hpl] at h

/-- C1: on the example line from the spec, next_record does not return the
claimed record with timestamp 1610000000123456: it returns InvalidTimestamp,
because split_at leaves the opening parenthesis on the seconds text and the
dot and closing parenthesis on the fraction text, so parse_raw fails on both
parts of every parenthesized timestamp field. -/
theorem c1_example_line_invalid_timestamp :
    (next_record ⟨strBytes "(1610000000.123456) can0 7E8#0102030405060708\n", []⟩).1
      = .error .invalidTimestamp := by decide

/-- C2: the frame id text is not read as hexadecimal.  parse_raw at u32 width
uses decimal FromStr, so the id text 7E8 does not parse at all, and a payload
with the valid hex id text 123 and data byte 00 does not decode to a frame
with id 0x123 and data byte 0: it is rejected with InvalidCanFrame (the data
text kept by split_at still starts with the separator byte, so hex decoding
fails before the id is even parsed). -/
theorem c2_hex_id_not_supported :
    parse_raw 32 (strBytes "7E8") = none
  ∧ parse_raw 32 (strBytes "123") = some 123
  ∧ decode_frame_payload (strBytes "123#00") = .error .invalidCanFrame := by decide

/-- C3: the line buffer is never cleared.  read_until appends to line_buf, so
after two calls on the two-line source the buffer holds both lines and the
second call parsed the concatenation, not the second line in isolation. -/
theorem c3_line_buf_not_cleared :
    (next_record (next_record ⟨strBytes "a\nb\n", []⟩).2).2.line_buf
      = strBytes "a\nb\n" := by decide

/-- C4: the remote-request marker is never detected.  split_at leaves the
separator byte on the data text, so for the payload 123#R the equality test
compares R with #R, remote-request stays false, hex decoding of #R fails, and
the decoder returns InvalidCanFrame instead of a remote-request frame with
empty data. -/
theorem c4_remote_marker_not_detected :
    decode_frame_payload (strBytes "123#R") = .error .invalidCanFrame := by decide

/-- C5: a line with only two fields does not yield UnexpectedEndOfLine: the
timestamp stage fails first on every line (the parentheses are never stripped
before numeric parsing), so next_record returns InvalidTimestamp. -/
theorem c5_two_field_line_invalid_timestamp :
    (next_record ⟨strBytes "(123.456) can0\n", []⟩).1
      = .error .invalidTimestamp := by decide

/-- C6 counterexample: an error element does not exhaust the record sequence.
On the two-line source below, the first poll yields an error element and the
second poll yields a further element rather than none. -/
theorem c6_error_element_not_exhausting :
    (records_next ⟨strBytes "x\ny\n", []⟩).1
        = some (.error .invalidTimestamp)
  ∧ (records_next (records_next ⟨strBytes "x\ny\n", []⟩).2).1
        = some (.error .invalidTimestamp) := by decide

/-- C6 amended: each element of the record sequence is either the projection
(timestamp, unit) of a successfully decoded record or a propagated parse
error, and once end-of-input has been observed the sequence produces no
further elements on subsequent polls; an error element, however, does not
exhaust the sequence. -/
theorem c6_adapter_elements (st : ReaderState) :
    ((records_next st).1 = none → (records_next (records_next st).2).1 = none)
  ∧ (∀ e, (records_next st).1 = some (.error e) → (next_record st).1 = .error e)
  ∧ (∀ p, (records_next st).1 = some (.ok p) →
      ∃ r, (next_record st).1 = .ok (some r) ∧ p = (r.t_us, ())) := by
  rcases hnr : next_record st with ⟨res, st'⟩
  rcases res with e | r
  · have hrw : records_next st = (some (.error e), st') := by
      simp [records_next, hnr]
    refine ⟨?_, ?_, ?_⟩
    · intro h
      rw [hrw] at h
      cases h
    · intro e' he
      rw [hrw] at he
      have h2 : e = e' := Except.error.inj (Option.some.inj he)
      cases h2
      rfl
    · intro p hp
      rw [hrw] at hp
      exact absurd (Option.some.inj hp) (by simp)
  · rcases r with _ | r
    · have hrw : records_next st = (none, st') := by
        simp [records_next, hnr]
      refine ⟨?_, ?_, ?_⟩
      · intro _
        have hsrc : st.source = [] :=
          next_record_ok_none_source st (by simp [hnr])
        have hnr2 := next_record_source_nil st hsrc
        rw [hnr] at hnr2
        have hst' : st' = ⟨[], st.line_buf⟩ := congrArg Prod.snd hnr2
        rw [hrw]
        have h3 : next_record st' = (.ok none, ⟨[], st'.line_buf⟩) :=
          next_record_source_nil st' (by rw [hst'])
        simp [records_next, h3]
      · intro e' he
        rw [hrw] at he
        cases he
      · intro p hp
        rw [hrw] at hp
        cases hp
    · have hrw : records_next st = (some (.ok (r.t_us, ())), st') := by
        simp [records_next, hnr]
      refine ⟨?_, ?_, ?_⟩
      · intro h
        rw [hrw] at h
        cases h
      · intro e' he
        rw [hrw] at he
        exact absurd (Option.some.inj he) (by simp)
      · intro p hp
        rw [hrw] at hp
        have hpe : (r.t_us, ()) = p := Except.ok.inj (Option.some.inj hp)
        exact ⟨r, rfl, hpe.symm⟩

/-- C6 witness: the amended theorem applied to a reader over an empty source,
discharging the end-of-input hypothesis by evaluation. -/
theorem c6_adapter_elements_witness :
    (records_next (records_next (⟨[], []⟩ : ReaderState)).2).1 = none :=
  (c6_adapter_elements ⟨[], []⟩).1 (by decide)

/-- C7: timestamp combination saturates.  For any parsed seconds and fraction
values in u64 range, if seconds times one million plus the fraction would
exceed the largest u64 value the combination returns exactly that largest
value, otherwise it returns the exact sum; the result never wraps and always
stays in u64 range. -/
theorem c7_saturating_timestamp (s m : Nat) (hs : s < 2 ^ 64) (hm : m < 2 ^ 64) :
    (2 ^ 64 ≤ s * 1000000 + m → combine_timestamp s m = 2 ^ 64 - 1)
  ∧ (s * 1000000 + m < 2 ^ 64 → combine_timestamp s m = s * 1000000 + m)
  ∧ combine_timestamp s m < 2 ^ 64 := by
  have h64 : (2 : Nat) ^ 64 = 18446744073709551616 := by norm_num
  unfold combine_timestamp u64_saturating_add u64_saturating_mul U64_MAX
  rw [h64] at hs hm ⊢
  omega

/-- C7 witness: the saturating combination evaluated at the largest u64
seconds value with fraction 123456 yields exactly the largest u64 value. -/
theorem c7_saturating_timestamp_witness :
    combine_timestamp (2 ^ 64 - 1) 123456 = 2 ^ 64 - 1 :=
  (c7_saturating_timestamp (2 ^ 64 - 1) 123456 (by norm_num) (by norm_num)).1
    (by norm_num)

/-- C8: a line whose payload has odd-length data after the separator does not
yield InvalidCanFrame from next_record: the timestamp stage fails first on
every line (parentheses are never stripped before numeric parsing), so the
result is InvalidTimestamp.  The payload stage in isolation does reject such
data with InvalidCanFrame. -/
theorem c8_bad_hex_line_invalid_timestamp :
    (next_record ⟨strBytes "(0.0) can0 123#ABC\n", []⟩).1
        = .error .invalidTimestamp
  ∧ decode_frame_payload (strBytes "123#ABC") = .error .invalidCanFrame := by decide

/-- C9: on an exhausted source, next_record returns the distinguished
no-more-records outcome, not an error, and the source stays exhausted, so
every subsequent read does the same. -/
theorem c9_eof_gives_none (st : ReaderState) (h : st.source = []) :
    (next_record st).1 = .ok none ∧ (next_record st).2.source = [] := by
  rw [next_record_source_nil st h]
  exact ⟨rfl, rfl⟩

/-- C9 witness: a reader over an empty source, with leftover bytes in the
line buffer, reports no more records. -/
theorem c9_eof_gives_none_witness :
    (next_record ⟨[], strBytes "junk"⟩).1 = .ok none
  ∧ (next_record ⟨[], strBytes "junk"⟩).2.source = [] :=
  c9_eof_gives_none ⟨[], strBytes "junk"⟩ rfl

/-- C10: a payload with empty data after the separator is rejected by the
decoder rather than passed to the frame constructor: split_at leaves the
separator byte on the data text, hex decoding of the single byte fails (odd
length), and the decoder returns InvalidCanFrame without ever calling the
constructor. -/
theorem c10_empty_data_rejected :
    decode_frame_payload (strBytes "123#") = .error .invalidCanFrame := by decide

end SocketCanDump
